import Mathlib

/-!
Verification development for the sales-analytics record-normalization
pipeline (src/app.py) and its SQLite store schema (src/init_db.py).

Modelling conventions:
* Python floats are modelled as exact rationals (ℚ); `round(x, n)` is
  modelled as round-half-to-even at `n` decimal places (Python `round`).
* Raw input values (JSON fields / CSV cells) are modelled as
  `Option String` (`none` = the key is absent).
* `float(...)` is modelled on plain decimal literals (optional sign,
  digits, optional fractional part); exponent, infinity and NaN forms
  are outside the modelled input space.
* Python strings are treated as ASCII: `str.upper`, `str.lower` and
  `str.title` are modelled on the ASCII letter range.
-/

/- ── Character utilities ───────────────────────────────────────────── -/

/-- The whitespace characters removed by Python `str.strip()`. -/
def isSpaceB (c : Char) : Bool :=
  c == ' ' || c == '\t' || c == '\n' || c == '\r' || c == '\x0b' || c == '\x0c'

/-- The 26 ASCII lower/upper case letter pairs. -/
def lowerUpperPairs : List (Char × Char) :=
  [('a', 'A'), ('b', 'B'), ('c', 'C'), ('d', 'D'), ('e', 'E'), ('f', 'F'),
   ('g', 'G'), ('h', 'H'), ('i', 'I'), ('j', 'J'), ('k', 'K'), ('l', 'L'),
   ('m', 'M'), ('n', 'N'), ('o', 'O'), ('p', 'P'), ('q', 'Q'), ('r', 'R'),
   ('s', 'S'), ('t', 'T'), ('u', 'U'), ('v', 'V'), ('w', 'W'), ('x', 'X'),
   ('y', 'Y'), ('z', 'Z')]

/-- The 26 ASCII upper/lower case letter pairs. -/
def upperLowerPairs : List (Char × Char) :=
  [('A', 'a'), ('B', 'b'), ('C', 'c'), ('D', 'd'), ('E', 'e'), ('F', 'f'),
   ('G', 'g'), ('H', 'h'), ('I', 'i'), ('J', 'j'), ('K', 'k'), ('L', 'l'),
   ('M', 'm'), ('N', 'n'), ('O', 'o'), ('P', 'p'), ('Q', 'q'), ('R', 'r'),
   ('S', 's'), ('T', 't'), ('U', 'u'), ('V', 'v'), ('W', 'w'), ('X', 'x'),
   ('Y', 'y'), ('Z', 'z')]

/-- ASCII upper-casing of one character (Python `str.upper`, ASCII range). -/
def asciiUpper (c : Char) : Char :=
  ((lowerUpperPairs.find? (fun p => p.1 == c)).map Prod.snd).getD c

/-- ASCII lower-casing of one character (Python `str.lower`, ASCII range). -/
def asciiLower (c : Char) : Char :=
  ((upperLowerPairs.find? (fun p => p.1 == c)).map Prod.snd).getD c

/-- ASCII letters: the characters that Python `str.title` treats as cased. -/
def isAsciiLetter (c : Char) : Bool :=
  ('a' ≤ c && c ≤ 'z') || ('A' ≤ c && c ≤ 'Z')

/- ── String utilities (Python str methods on ASCII data) ───────────── -/

/-- Drop trailing characters satisfying `isSpaceB` from a character list. -/
def dropTrailing (l : List Char) : List Char :=
  l.foldr (fun c acc => if acc.isEmpty && isSpaceB c then [] else c :: acc) []

/-- Python `str.strip()` on a character list: remove leading and trailing
whitespace. -/
def pyStripList (l : List Char) : List Char :=
  dropTrailing (l.dropWhile isSpaceB)

/-- Python `str.strip()`. -/
def pyStrip (s : String) : String :=
  (pyStripList s.toList).asString

/-- One step of Python `str.title`: upper-case a character unless the
previous character was cased (an ASCII letter here). -/
def titleStep (prevCased : Bool) (c : Char) : Char :=
  if prevCased then asciiLower c else asciiUpper c

/-- Python `str.title` on a character list, carrying whether the previous
character was cased. -/
def titleChars : Bool → List Char → List Char
  | _, [] => []
  | b, c :: cs => titleStep b c :: titleChars (isAsciiLetter c) cs

/-- Python `str.title()`. -/
def titleCase (s : String) : String :=
  (titleChars false s.toList).asString

/-- Python `str.upper()`. -/
def pyUpper (s : String) : String :=
  (s.toList.map asciiUpper).asString

/-- Python `str.lower()`. -/
def pyLower (s : String) : String :=
  (s.toList.map asciiLower).asString

/-- `str(x).strip().title()` — the cleaning applied to every string field
in `clean_record` (src/app.py lines 107-115, 189-191). -/
def cleanStr (s : String) : String :=
  titleCase (pyStrip s)

/-- Substring test: Python `needle in hay` on strings. -/
def substrIn (needle hay : String) : Bool :=
  (hay.toList.tails).any (fun t => needle.toList.isPrefixOf t)

/-- Python `str.zfill`: left-pad with zeros to the given width
(src/app.py line 182). -/
def zfill (width : Nat) (s : String) : String :=
  if s.length ≥ width then s
  else (List.replicate (width - s.length) '0').asString ++ s

/- ── Numeric model: Python floats as exact rationals ───────────────── -/

/-- Decimal digits to a natural number. -/
def digitsToNat (ds : List Char) : Nat :=
  ds.foldl (fun a c => a * 10 + (c.toNat - 48)) 0

/-- Python `float(...)` on a plain decimal literal: optional sign, digits,
optional fractional part (`"3"`, `"-5"`, `"0.15"`, `"1."`, `".5"`).
Returns `none` where Python `float` would raise `ValueError`. -/
def parseFloat (s : String) : Option ℚ :=
  let cs := s.toList
  let signRest : ℚ × List Char :=
    match cs with
    | '-' :: r => (-1, r)
    | '+' :: r => (1, r)
    | r => (1, r)
  let sign := signRest.1
  let rest := signRest.2
  let intPart := rest.takeWhile Char.isDigit
  let rest2 := rest.dropWhile Char.isDigit
  match rest2 with
  | [] =>
    if intPart.isEmpty then none
    else some (sign * (digitsToNat intPart : ℚ))
  | '.' :: frac =>
    if frac.all Char.isDigit && !(intPart.isEmpty && frac.isEmpty) then
      some (sign * ((digitsToNat intPart : ℚ)
        + (digitsToNat frac : ℚ) / ((10 : ℚ) ^ frac.length)))
    else none
  | _ => none

/-- Round half to even to an integer (Python `round` on exact values). -/
def roundHalfEven (q : ℚ) : ℤ :=
  let f := ⌊q⌋
  let r := q - (f : ℚ)
  if r < 1/2 then f
  else if 1/2 < r then f + 1
  else if f % 2 = 0 then f else f + 1

/-- Python `round(x, 2)`. -/
def round2 (q : ℚ) : ℚ :=
  ((roundHalfEven (q * 100) : ℤ) : ℚ) / 100

/-- Python `int(x)` on a float: truncation toward zero. -/
def pyInt (q : ℚ) : ℤ :=
  if 0 ≤ q then ⌊q⌋ else -⌊-q⌋

/-- SQLite `ROUND(x, 1)`: round half away from zero at one decimal. -/
def sqliteRound1 (q : ℚ) : ℚ :=
  (((if 0 ≤ q then ⌊q * 10 + 1/2⌋ else -⌊-(q * 10) + 1/2⌋) : ℤ) : ℚ) / 10

/- ── The numeric coercion helper `to_f` (src/app.py lines 127-132) ─── -/

/-- Remove the characters `,`, `$`, `%` and then strip whitespace
(src/app.py line 130). -/
def stripMoney (s : String) : String :=
  pyStrip ((s.toList.filter (fun c => !(c == ',') && !(c == '$') && !(c == '%'))).asString)

/-- `to_f(val, default_val)` from `clean_record`: tolerant numeric
coercion, returning the default on a missing/blank/unparseable value. -/
def to_f (val : Option String) (default_val : ℚ) : ℚ :=
  match val with
  | none => default_val
  | some v =>
    if pyStrip v = "" then default_val
    else
      match parseFloat (stripMoney v) with
      | some q => q
      | none => default_val

/- ── Canonical record and store rows ───────────────────────────────── -/

/-- The cleaned record returned by `clean_record`
(src/app.py lines 195-213). -/
structure SalesRecord where
  Order_ID : String
  Order_Date : String
  Customer_ID : String
  Customer_Name : String
  Region : String
  Product : String
  Category : String
  Quantity : ℤ
  Unit_Price : ℚ
  Cost_Price : ℚ
  Discount : ℚ
  Sales_Amount : ℚ
  Profit : ℚ
  Payment_Method : String
  Age : ℤ
  Gender : String
  Annual_Income : ℚ
deriving DecidableEq, Repr

/-- A stored row of the `sales` table: the inserted fields plus the
`id INTEGER PRIMARY KEY AUTOINCREMENT` column (src/init_db.py lines 18-38). -/
structure StoredRow where
  id : Nat
  row : SalesRecord
deriving DecidableEq, Repr

/-- An all-empty/zero record, used as the junk value when projecting the
fields out of a failed `clean_record` call. -/
def emptyRecord : SalesRecord :=
  { Order_ID := "", Order_Date := "", Customer_ID := "", Customer_Name := "",
    Region := "", Product := "", Category := "", Quantity := 0,
    Unit_Price := 0, Cost_Price := 0, Discount := 0, Sales_Amount := 0,
    Profit := 0, Payment_Method := "", Age := 0, Gender := "",
    Annual_Income := 0 }

/-- Project the record out of a `clean_record` result (`emptyRecord` on
the error case). -/
def recOf (e : Except String (SalesRecord × List String)) : SalesRecord :=
  match e with
  | .ok p => p.1
  | .error _ => emptyRecord

/- ── Alias resolution (src/app.py lines 48-83) ─────────────────────── -/

/-- `norm` from src/app.py line 48: lower-case and keep only the
characters matching `[a-z0-9]`. -/
def normLabel (s : String) : String :=
  ((s.toList.map asciiLower).filter
    (fun c => ('a' ≤ c && c ≤ 'z') || c.isDigit)).asString

/-- The static alias table of `get_header_mapping`
(src/app.py lines 60-75), in source order. -/
def aliases : List (String × List String) :=
  [("Order_ID", ["Order ID", "ID", "OrderID", "Order #", "Transaction",
      "Trans ID", "Car_id"]),
   ("Order_Date", ["Date", "Order Date", "Timestamp", "Created At",
      "Transaction Date", "Time"]),
   ("Customer_Name", ["Customer", "Name", "Buyer", "Client", "User Name",
      "User", "Customer N", "Customer Name"]),
   ("Region", ["Location", "Territory", "State", "Country", "Region Name",
      "Dealer_Region", "Dealer_Region"]),
   ("Product", ["Item", "Product Name", "SKU", "Description", "Product",
      "Model", "Company"]),
   ("Category", ["Cat", "Department", "Type", "Category Name",
      "Product Category", "Body Style"]),
   ("Quantity", ["Qty", "Units", "Amount Sold", "Count",
      "Quantity Purchased"]),
   ("Unit_Price", ["Price", "Rate", "Sales Price", "Retail Price",
      "Revenue", "Purchase Amount", "Amount", "Total", "Price ($)"]),
   ("Cost_Price", ["Cost", "COGS", "Purchase Price", "Buying Price"]),
   ("Discount", ["Disc", "Promo", "Markdown", "Discount %"]),
   ("Payment_Method", ["Payment", "Method", "Payment Method",
      "Payment_Method", "Type", "Transmission"]),
   ("Age", ["Age", "Customer Age", "Buyer Age"]),
   ("Gender", ["Gender", "Sex"]),
   ("Annual_Income", ["Income", "Annual Income", "Annual Inco"])]

/-- Look up a normalized key in `raw_norm = {norm(h): h for h in headers if h}`.
A Python dict comprehension keeps the LAST header producing a given
normalized key, hence `getLast?`. -/
def rawNormLookup (headers : List String) (key : String) : Option String :=
  (headers.filter (fun h => !(h == "") && normLabel h == key)).getLast?

/-- First candidate label (in priority order) whose normalization matches
a raw header; returns that raw header. -/
def firstMatch (headers : List String) : List String → Option String
  | [] => none
  | alt :: rest =>
    match rawNormLookup headers (normLabel alt) with
    | some h => some h
    | none => firstMatch headers rest

/-- `get_header_mapping` (src/app.py lines 52-83): for each canonical
field, the first of `[target] + alt_list` whose normalization matches a
header, mapped to that raw header. -/
def get_header_mapping (headers : List String) : List (String × String) :=
  aliases.filterMap (fun p =>
    (firstMatch headers (p.1 :: p.2)).map (fun h => (p.1, h)))

/-- Look up a canonical field in a computed header mapping. -/
def mappingLookup (m : List (String × String)) (target : String) : Option String :=
  (m.find? (fun p => p.1 == target)).map Prod.snd

/- ── Raw records and internal data extraction ──────────────────────── -/

/-- A raw input record: arbitrary string labels to possibly-absent
scalar values. -/
abbrev RawRecord := List (String × Option String)

/-- Python `raw.get(h)`: `None` when the key is absent or its value is. -/
def rawGet (raw : RawRecord) (h : String) : Option String :=
  match raw.find? (fun p => p.1 == h) with
  | none => none
  | some p => p.2

/-- The mapping `clean_record` uses: the precomputed one when given,
else `get_header_mapping(list(raw.keys()))` (src/app.py lines 96-103). -/
def effectiveMapping (raw : RawRecord) (hm : Option (List (String × String))) :
    List (String × String) :=
  match hm with
  | some m => m
  | none => get_header_mapping (raw.map Prod.fst)

/-- `internal_data.get(target)`: the raw value under the header mapped to
a canonical field (src/app.py lines 94-103). -/
def internalGet (m : List (String × String)) (raw : RawRecord) (target : String) :
    Option String :=
  match mappingLookup m target with
  | none => none
  | some h => rawGet raw h

/-- Shorthand: internal value of a canonical field for a raw record under
the effective mapping. -/
def iget (raw : RawRecord) (hm : Option (List (String × String))) (target : String) :
    Option String :=
  internalGet (effectiveMapping raw hm) raw target

/-- Python falsiness of a raw value: absent or the empty string. -/
def pyFalsy (v : Option String) : Bool :=
  v.getD "" == ""

/-- `str(x or d)` for a raw value and a default string. -/
def pyOrDefault (v : Option String) (d : String) : String :=
  match v with
  | none => d
  | some s => if s = "" then d else s

/-- `str(internal_data.get(k) or d).strip().title()` — the string-field
cleaning pattern of `clean_record`. -/
def strOrDefault (v : Option String) (d : String) : String :=
  cleanStr (pyOrDefault v d)

/- ── Region normalization (src/app.py lines 117-124) ───────────────── -/

/-- The canonical region whitelist. Python iterates the set
`{"North", "South", "East", "West"}` whose order is unspecified; it is
modelled here in the literal order. The order is only observable when a
region name contains two distinct canonical names as substrings. -/
def validRegions : List String := ["North", "South", "East", "West"]

/-- Region normalization: keep whitelisted regions; otherwise substitute
a canonical region occurring as a case-insensitive substring; otherwise
keep the cleaned string and warn. Returns the region and the warnings
appended by this step. -/
def normalizeRegion (region : String) : String × List String :=
  if validRegions.contains region then (region, [])
  else
    match validRegions.find? (fun v => substrIn (pyLower v) (pyLower region)) with
    | some m => (m, [])
    | none => (region, ["Region \x27" ++ region ++ "\x27 is non-standard"])

/- ── Date parsing (src/app.py lines 160-172) ───────────────────────── -/

/-- Leap year rule (Gregorian), as used by `datetime.strptime`. -/
def isLeap (y : Nat) : Bool :=
  (y % 4 == 0 && y % 100 != 0) || (y % 400 == 0)

/-- Days in a month. -/
def daysInMonth (y m : Nat) : Nat :=
  if m == 2 then (if isLeap y then 29 else 28)
  else if m == 4 || m == 6 || m == 9 || m == 11 then 30
  else 31

/-- A valid `datetime.date` triple (year 1-9999). -/
def validDate (y m d : Nat) : Bool :=
  1 ≤ y && y ≤ 9999 && 1 ≤ m && m ≤ 12 && 1 ≤ d && d ≤ daysInMonth y m

/-- A digit group acceptable for strptime `%m`/`%d`: non-empty, all
digits, at most `w` characters. -/
def digitGroup (w : Nat) (s : String) : Bool :=
  !(s.toList.isEmpty) && s.toList.all Char.isDigit && s.length ≤ w

/-- The digit group for strptime `%Y`: exactly four digits
(CPython compiles `%Y` to the regex `\d\d\d\d`). -/
def yearGroup (s : String) : Bool :=
  s.toList.all Char.isDigit && s.length == 4

/-- Split a character list on a separator, keeping empty groups
(the behavior of Python `str.split(sep)`). -/
def splitOnChar (sep : Char) : List Char → List (List Char)
  | [] => [[]]
  | c :: cs =>
    match splitOnChar sep cs with
    | [] => [[]]
    | g :: gs => if c == sep then [] :: g :: gs else (c :: g) :: gs

/-- Parse three groups separated by `sep`. -/
def splitDate (sep : Char) (s : String) : Option (String × String × String) :=
  match (splitOnChar sep s.toList).map List.asString with
  | [x, y, z] => some (x, y, z)
  | _ => none

/-- `datetime.strptime(s, "%Y{sep}%m{sep}%d")`, as a (year, month, day)
triple. -/
def parseYMD (sep : Char) (s : String) : Option (Nat × Nat × Nat) :=
  match splitDate sep s with
  | some (a, b, c) =>
    if yearGroup a && digitGroup 2 b && digitGroup 2 c then
      let y := digitsToNat a.toList
      let m := digitsToNat b.toList
      let d := digitsToNat c.toList
      if validDate y m d then some (y, m, d) else none
    else none
  | none => none

/-- `datetime.strptime(s, "%d{sep}%m{sep}%Y")`. -/
def parseDMY (sep : Char) (s : String) : Option (Nat × Nat × Nat) :=
  match splitDate sep s with
  | some (a, b, c) =>
    if digitGroup 2 a && digitGroup 2 b && yearGroup c then
      let d := digitsToNat a.toList
      let m := digitsToNat b.toList
      let y := digitsToNat c.toList
      if validDate y m d then some (y, m, d) else none
    else none
  | none => none

/-- `datetime.strptime(s, "%m{sep}%d{sep}%Y")`. -/
def parseMDY (sep : Char) (s : String) : Option (Nat × Nat × Nat) :=
  match splitDate sep s with
  | some (a, b, c) =>
    if digitGroup 2 a && digitGroup 2 b && yearGroup c then
      let m := digitsToNat a.toList
      let d := digitsToNat b.toList
      let y := digitsToNat c.toList
      if validDate y m d then some (y, m, d) else none
    else none
  | none => none

/-- Try the five date formats of src/app.py line 164 in order:
`%Y-%m-%d`, `%d/%m/%Y`, `%m/%d/%Y`, `%d-%m-%Y`, `%Y/%m/%d`. -/
def parseDateAny (s : String) : Option (Nat × Nat × Nat) :=
  match parseYMD '-' s with
  | some r => some r
  | none =>
    match parseDMY '/' s with
    | some r => some r
    | none =>
      match parseMDY '/' s with
      | some r => some r
      | none =>
        match parseDMY '-' s with
        | some r => some r
        | none => parseYMD '/' s

/-- `date.isoformat()` of a (year, month, day) triple. -/
def isoDate (y m d : Nat) : String :=
  zfill 4 (toString y) ++ "-" ++ zfill 2 (toString m) ++ "-" ++ zfill 2 (toString d)

/- ── The clean_record field pipeline (src/app.py lines 86-213) ─────── -/

/-- `c_name` (line 107). -/
def c_nameOf (raw : RawRecord) (hm : Option (List (String × String))) : String :=
  strOrDefault (iget raw hm "Customer_Name") "Unknown Customer"

/-- The region after cleaning and normalization together with the region
warnings (lines 108, 117-124). -/
def regionPair (raw : RawRecord) (hm : Option (List (String × String))) :
    String × List String :=
  normalizeRegion (strOrDefault (iget raw hm "Region") "Unknown")

/-- `cat` (line 109). -/
def catOf (raw : RawRecord) (hm : Option (List (String × String))) : String :=
  strOrDefault (iget raw hm "Category") "Other"

/-- `prod` (lines 111-115): fall back to the cleaned category when the
raw product is falsy and the category is not `"Other"`. -/
def prodOf (raw : RawRecord) (hm : Option (List (String × String))) : String :=
  let cat := catOf raw hm
  let prod_raw := iget raw hm "Product"
  let prod_val : Option String :=
    if pyFalsy prod_raw && !(cat == "Other") then some cat else prod_raw
  strOrDefault prod_val "Unknown Product"

/-- `u_price` before validation (line 134). -/
def u_price0Of (raw : RawRecord) (hm : Option (List (String × String))) : ℚ :=
  to_f (iget raw hm "Unit_Price") 100

/-- `c_price` before validation (lines 137-141): infer 70% of the unit
price when the raw cost is absent or blank. -/
def c_price0Of (raw : RawRecord) (hm : Option (List (String × String))) : ℚ :=
  let raw_cost := iget raw hm "Cost_Price"
  if pyStrip (raw_cost.getD "") = "" then round2 (u_price0Of raw hm * (7/10))
  else to_f raw_cost 60

/-- `qty_f` (line 143). -/
def qty_fOf (raw : RawRecord) (hm : Option (List (String × String))) : ℚ :=
  to_f (iget raw hm "Quantity") 1

/-- `disc_f` (line 144). -/
def disc_fOf (raw : RawRecord) (hm : Option (List (String × String))) : ℚ :=
  to_f (iget raw hm "Discount") 0

/-- Quantity validation (line 147): `int(qty_f) if qty_f > 0 else 1`. -/
def validateQty (qty_f : ℚ) : ℤ :=
  if qty_f > 0 then pyInt qty_f else 1

/-- `qty` (line 147). -/
def qtyOf (raw : RawRecord) (hm : Option (List (String × String))) : ℤ :=
  validateQty (qty_fOf raw hm)

/-- `u_price` after validation (line 148). -/
def u_priceOf (raw : RawRecord) (hm : Option (List (String × String))) : ℚ :=
  if u_price0Of raw hm > 0 then u_price0Of raw hm else 100

/-- `c_price` after validation (line 149). -/
def c_priceOf (raw : RawRecord) (hm : Option (List (String × String))) : ℚ :=
  if c_price0Of raw hm > 0 then c_price0Of raw hm else 60

/-- Discount normalization (lines 152-154): values `> 1` are percentages,
then clamp to `[0, 0.9]`. -/
def normalizeDiscount (disc_f : ℚ) : ℚ :=
  let d0 := if disc_f > 1 then disc_f / 100 else disc_f
  let d1 := if d0 < 0 then 0 else d0
  if d1 > 9/10 then 9/10 else d1

/-- `discount` (lines 152-154). -/
def discountOf (raw : RawRecord) (hm : Option (List (String × String))) : ℚ :=
  normalizeDiscount (disc_fOf raw hm)

/-- `sales_amt` (line 157). -/
def sales_amtOf (raw : RawRecord) (hm : Option (List (String × String))) : ℚ :=
  round2 ((qtyOf raw hm : ℚ) * u_priceOf raw hm * (1 - discountOf raw hm))

/-- `profit` (line 158). -/
def profitOf (raw : RawRecord) (hm : Option (List (String × String))) : ℚ :=
  round2 (sales_amtOf raw hm - (qtyOf raw hm : ℚ) * c_priceOf raw hm)

/-- `date_str` (line 161). -/
def date_strOf (raw : RawRecord) (hm : Option (List (String × String))) : String :=
  pyStrip (pyOrDefault (iget raw hm "Order_Date") "")

/-- `parsed_dt` (lines 162-168). -/
def parsedDateOf (raw : RawRecord) (hm : Option (List (String × String))) :
    Option (Nat × Nat × Nat) :=
  if date_strOf raw hm = "" then none else parseDateAny (date_strOf raw hm)

/-- `o_date` (line 170); `today` is the ISO string of the current date,
supplied by the environment. -/
def o_dateOf (raw : RawRecord) (hm : Option (List (String × String)))
    (today : String) : String :=
  match parsedDateOf raw hm with
  | some ymd => isoDate ymd.1 ymd.2.1 ymd.2.2
  | none => today

/-- The date warning (lines 171-172). -/
def dateWarnings (raw : RawRecord) (hm : Option (List (String × String))) :
    List String :=
  if parsedDateOf raw hm = none && !(date_strOf raw hm == "") then
    ["Date \x27" ++ date_strOf raw hm ++ "\x27 invalid, used today"]
  else []

/-- The warnings list returned by `clean_record`: the region warning
(appended at line 124) followed by the date warning (line 172). -/
def warningsOf (raw : RawRecord) (hm : Option (List (String × String))) :
    List String :=
  (regionPair raw hm).2 ++ dateWarnings raw hm

/-- `o_id` before generation (line 175): the explicit order identifier,
or `""` when absent/blank. -/
def explicitOrderId (raw : RawRecord) (hm : Option (List (String × String))) :
    String :=
  pyStrip (pyOrDefault (iget raw hm "Order_ID") "")

/-- `SELECT 1 FROM sales WHERE Order_ID=?` is non-empty (line 177). -/
def orderExists (db : List StoredRow) (oid : String) : Bool :=
  db.any (fun r => r.row.Order_ID == oid)

/-- Auto-generated order id (lines 180-182): `ORD-` plus the zero-padded
sequence number — the caller-supplied hint, or `COUNT(*) + 1`. -/
def genOrderId (db : List StoredRow) (next_order_num : Option Nat) : String :=
  "ORD-" ++ zfill 6 (toString (next_order_num.getD (db.length + 1)))

/-- Customer-id slug (lines 185-186): uppercase, keep `[A-Z0-9]`, fall
back to `CUST`, take 6 characters, prefix `C-`. -/
def slugCustomerId (c_name : String) : String :=
  let name_clean := ((pyUpper c_name).toList.filter
    (fun c => ('A' ≤ c && c ≤ 'Z') || c.isDigit)).asString
  let base := if name_clean = "" then "CUST" else name_clean
  "C-" ++ (base.toList.take 6).asString

/-- The record assembled by `clean_record` (lines 180-213), given that
the duplicate check did not fire. -/
def assembleRecord (raw : RawRecord) (hm : Option (List (String × String)))
    (next_order_num : Option Nat) (db : List StoredRow) (today : String) :
    SalesRecord :=
  let o_id0 := explicitOrderId raw hm
  { Order_ID := if o_id0 == "" then genOrderId db next_order_num else o_id0,
    Order_Date := o_dateOf raw hm today,
    Customer_ID := slugCustomerId (c_nameOf raw hm),
    Customer_Name := c_nameOf raw hm,
    Region := (regionPair raw hm).1,
    Product := prodOf raw hm,
    Category := catOf raw hm,
    Quantity := qtyOf raw hm,
    Unit_Price := u_priceOf raw hm,
    Cost_Price := c_priceOf raw hm,
    Discount := discountOf raw hm,
    Sales_Amount := sales_amtOf raw hm,
    Profit := profitOf raw hm,
    Payment_Method := strOrDefault (iget raw hm "Payment_Method") "Unknown",
    Age := pyInt (to_f (iget raw hm "Age") 0),
    Gender := strOrDefault (iget raw hm "Gender") "Unknown",
    Annual_Income := to_f (iget raw hm "Annual_Income") 0 }

/-- `clean_record` (src/app.py lines 86-213). Raises (returns `.error`)
exactly on the duplicate-identifier check of lines 176-178; otherwise
returns the cleaned record and the warnings list. The store `db` is only
read (duplicate check, sequence count); `today` models `date.today()`. -/
def clean_record (raw : RawRecord) (check_duplicates : Bool)
    (next_order_num : Option Nat) (header_mapping : Option (List (String × String)))
    (db : List StoredRow) (today : String) :
    Except String (SalesRecord × List String) :=
  let o_id0 := explicitOrderId raw header_mapping
  if check_duplicates && !(o_id0 == "") && orderExists db o_id0 then
    .error ("Duplicate Order_ID: " ++ o_id0)
  else
    .ok (assembleRecord raw header_mapping next_order_num db today,
         warningsOf raw header_mapping)

/- ── Store writes (src/init_db.py, src/app.py routes) ──────────────── -/

/-- The next `id` assigned by `INTEGER PRIMARY KEY AUTOINCREMENT`:
one more than the largest id ever used (monotone, never reused). -/
def nextId (db : List StoredRow) : Nat :=
  (db.map StoredRow.id).foldr max 0 + 1

/-- Two stored rows conflict iff they collide on a uniqueness constraint
of the `sales` schema. The schema of src/init_db.py lines 18-38 declares
exactly one uniqueness constraint: the `INTEGER PRIMARY KEY AUTOINCREMENT`
on `id`. `Order_ID` carries no `UNIQUE` constraint, and the only indexes
created (lines 40-46) are non-unique. -/
def rowConflict (a b : StoredRow) : Bool :=
  a.id == b.id

/-- Plain `INSERT` of a cleaned record (src/app.py lines 424-437). -/
def insertRow (db : List StoredRow) (r : SalesRecord) : List StoredRow :=
  db ++ [{ id := nextId db, row := r }]

/-- `INSERT OR IGNORE` of one row (src/app.py lines 509-514): SQLite
skips the row iff it would violate a uniqueness constraint of the table;
with this schema that is only an `id` collision, which the autoincrement
assignment never produces. -/
def insertOrIgnore (db : List StoredRow) (r : SalesRecord) : List StoredRow :=
  let new : StoredRow := { id := nextId db, row := r }
  if db.any (fun e => rowConflict e new) then db else db ++ [new]

/-- `POST /api/orders` (src/app.py lines 416-445): clean the record with
duplicate checking on; on error return HTTP 400 leaving the store
untouched, else insert and return the cleaned record with its warnings. -/
def api_orders_post (db : List StoredRow) (raw : RawRecord) (today : String) :
    List StoredRow × Except String (SalesRecord × List String) :=
  match clean_record raw true none none db today with
  | .error e => (db, .error e)
  | .ok p => (insertRow db p.1, .ok p)

/-- Essential-field validation before bulk insert (src/app.py lines
485-486): Region, Product and Order_Date must be non-empty. -/
def essentialOk (r : SalesRecord) : Bool :=
  !(r.Region == "") && !(r.Product == "") && !(r.Order_Date == "")

/-- Outcome of a bulk import. -/
structure ImportOutcome where
  db : List StoredRow
  inserted : Nat
  skipped : Nat
  warn_log : List String
deriving DecidableEq, Repr

/-- The loop state of `api_import`. -/
structure ImportState where
  i : Nat
  inserted : Nat
  skipped : Nat
  warn_log : List String
  rows_to_insert : List SalesRecord
deriving DecidableEq, Repr

/-- One iteration of the `api_import` row loop (src/app.py lines
477-505): clean the row with duplicate checking off and the precomputed
sequence hint and header mapping; skip rows whose essential fields are
still empty; log at most 50 warning entries. -/
def importStep (db0 : List StoredRow) (mapping : List (String × String))
    (today : String) (st : ImportState) (raw : RawRecord) : ImportState :=
  let i := st.i + 1
  match clean_record raw false (some (db0.length + st.inserted + 1))
      (some mapping) db0 today with
  | .error e =>
    { st with
      i := i
      skipped := st.skipped + 1
      warn_log := if st.warn_log.length < 50 then
          st.warn_log ++ ["Row " ++ toString i ++ " skipped — ValueError: " ++ e]
        else st.warn_log }
  | .ok (cleaned, warns) =>
    if essentialOk cleaned then
      { st with
        i := i
        inserted := st.inserted + 1
        rows_to_insert := st.rows_to_insert ++ [cleaned]
        warn_log := if !warns.isEmpty && st.warn_log.length < 50 then
            st.warn_log ++ ["Row " ++ toString i ++ ": "
              ++ String.intercalate "; " warns]
          else st.warn_log }
    else
      { st with
        i := i
        skipped := st.skipped + 1
        warn_log := if st.warn_log.length < 50 then
            st.warn_log ++ ["Row " ++ toString i
              ++ " skipped — ValueError: Missing essential fields: Region="
              ++ cleaned.Region ++ ", Product=" ++ cleaned.Product
              ++ ", Date=" ++ cleaned.Order_Date]
          else st.warn_log }

/-- `POST /api/import` after the optional clear (src/app.py lines
466-523): precompute the store count and the header mapping once, clean
every row with duplicate checking off, then bulk-insert the surviving
rows with `INSERT OR IGNORE` semantics. -/
def api_import (db0 : List StoredRow) (fieldnames : List String)
    (rows : List RawRecord) (today : String) : ImportOutcome :=
  let mapping := get_header_mapping fieldnames
  let final := rows.foldl (importStep db0 mapping today)
    { i := 0, inserted := 0, skipped := 0, warn_log := [], rows_to_insert := [] }
  { db := final.rows_to_insert.foldl insertOrIgnore db0,
    inserted := final.inserted,
    skipped := final.skipped,
    warn_log := final.warn_log }

/- ── Insight rule 3 (src/app.py lines 249-260) ─────────────────────── -/

/-- Distinct `South`-region orders of one customer: the inner
`COUNT(DISTINCT Order_ID) ... WHERE Region=South GROUP BY Customer_ID`. -/
def southOrderCount (rows : List SalesRecord) (cid : String) : Nat :=
  (((rows.filter (fun r => r.Region == "South" && r.Customer_ID == cid)).map
    SalesRecord.Order_ID).dedup).length

/-- The distinct customers of the `South` region (the groups of the
`co` CTE). -/
def southCustomerIds (rows : List SalesRecord) : List String :=
  ((rows.filter (fun r => r.Region == "South")).map SalesRecord.Customer_ID).dedup

/-- The repeat-customer rate of the South region:
`ROUND(SUM(CASE WHEN c>=2 THEN 1 ELSE 0 END)*100.0/COUNT(*),1)` over
`co`; `none` models the SQL `NULL` produced when `co` is empty. -/
def southRepeatRate (rows : List SalesRecord) : Option ℚ :=
  let custs := southCustomerIds rows
  if custs.isEmpty then none
  else some (sqliteRound1
    (((custs.filter (fun c => 2 ≤ southOrderCount rows c)).length : ℚ) * 100
      / (custs.length : ℚ)))

/-- Decimal rendering of a rate `k/10` produced by `sqliteRound1`
(Python float repr with one decimal, non-negative values). -/
def rateRepr (q : ℚ) : String :=
  let k := ⌊q * 10⌋.toNat
  toString (k / 10) ++ "." ++ toString (k % 10)

/-- Insight rule 3 (src/app.py lines 249-260): the South-region
repeat-customer warning. The insight is appended only when the rate is
non-NULL and below 60. -/
def rule3_south (rows : List SalesRecord) : List String :=
  match southRepeatRate rows with
  | none => []
  | some rate =>
    if rate < 60 then
      ["⚠️ South region repeat customer rate is **" ++ rateRepr rate
        ++ "%** — below the 60% benchmark. "
        ++ "Consider a re-engagement campaign for lapsed South buyers."]
    else []

/- ── Result projections and concrete inputs used by the theorems ───── -/

/-- Whether a `clean_record` result is a success. -/
def isOkB (e : Except String (SalesRecord × List String)) : Bool :=
  match e with
  | .ok _ => true
  | .error _ => false

/-- Whether a `clean_record` result is the duplicate-identifier error. -/
def isErrB (e : Except String (SalesRecord × List String)) : Bool :=
  match e with
  | .ok _ => false
  | .error _ => true

/-- The warnings of a successful `clean_record` result. -/
def warnsOf (e : Except String (SalesRecord × List String)) : List String :=
  match e with
  | .ok p => p.2
  | .error _ => []

/-- The raw record of the end-to-end example of the spec (§8). -/
def c4raw : RawRecord :=
  [("Order Date", some "15/03/2024"), ("Customer", some "jane doe"),
   ("Location", some "north"), ("Item", some "Widget"),
   ("Qty", some "3"), ("Price", some "$50"), ("Discount", some "10")]

/-- A raw record whose coerced quantity is the fractional value 0.5. -/
def c2raw : RawRecord := [("Quantity", some "0.5")]

/-- A raw record with a negative quantity and an otherwise clean shape. -/
def c3raw : RawRecord := [("Location", some "north"), ("Qty", some "-3")]

/-- A raw record whose category cleans to the empty string and whose
product is absent. -/
def c10raw : RawRecord := [("Category", some " ")]

/-- A raw record with an absent product and a clean non-empty category. -/
def c10wraw : RawRecord := [("Category", some "gadgets")]

/-- CSV headers for the duplicate-order bulk import. -/
def c1headers : List String := ["Order ID", "Date", "Location", "Item"]

/-- One CSV row with the explicit order id `A1`. -/
def c1row : RawRecord :=
  [("Order ID", some "A1"), ("Date", some "2024-01-02"),
   ("Location", some "north"), ("Item", some "W")]

/-- A South-region store with one customer holding two distinct orders
(repeat rate 100%). -/
def c8rows : List SalesRecord :=
  [{ emptyRecord with Order_ID := "O1", Customer_ID := "C1", Region := "South" },
   { emptyRecord with Order_ID := "O2", Customer_ID := "C1", Region := "South" }]

/-- A store holding one row with the explicit order id `X1`. -/
def c7db : List StoredRow :=
  [{ id := 1, row := { emptyRecord with Order_ID := "X1" } }]

/-- A raw record submitting the explicit order id `X1`. -/
def c7raw : RawRecord := [("Order_ID", some "X1")]

/- ── Theorems ──────────────────────────────────────────────────────── -/

/-- C4: cleaning the raw record
`{"Order Date":"15/03/2024","Customer":"jane doe","Location":"north",
"Item":"Widget","Qty":"3","Price":"$50","Discount":"10"}` yields the
canonical record `Order_Date=2024-03-15, Customer_Name=Jane Doe,
Region=North, Product=Widget, Quantity=3, Unit_Price=50.0,
Cost_Price=35.0, Discount=0.1, Sales_Amount=135.0, Profit=30.0` with a
generated `Order_ID` and `Customer_ID` and an empty warnings list, for
any state of the store. -/
theorem c4_end_to_end_example (db : List StoredRow) (today : String) :
    clean_record c4raw true none none db today =
      .ok ({ Order_ID := genOrderId db none
             Order_Date := "2024-03-15"
             Customer_ID := "C-JANEDO"
             Customer_Name := "Jane Doe"
             Region := "North"
             Product := "Widget"
             Category := "Other"
             Quantity := 3
             Unit_Price := 50
             Cost_Price := 35
             Discount := 1/10
             Sales_Amount := 135
             Profit := 30
             Payment_Method := "Unknown"
             Age := 0
             Gender := "Unknown"
             Annual_Income := 0 }, []) := by
  with_unfolding_all rfl

/-- `clean_record` unfolded: the duplicate-check guard around the
assembled record and warnings. -/
theorem clean_record_eq (raw : RawRecord) (cd : Bool) (non : Option Nat)
    (hm : Option (List (String × String))) (db : List StoredRow) (today : String) :
    clean_record raw cd non hm db today
      = if cd && !(explicitOrderId raw hm == "")
            && orderExists db (explicitOrderId raw hm)
        then .error ("Duplicate Order_ID: " ++ explicitOrderId raw hm)
        else .ok (assembleRecord raw hm non db today, warningsOf raw hm) := rfl

/-- The record projected from a `clean_record` result is either the junk
record (error case) or the assembled record. -/
theorem recOf_cases (raw : RawRecord) (cd : Bool) (non : Option Nat)
    (hm : Option (List (String × String))) (db : List StoredRow) (today : String) :
    recOf (clean_record raw cd non hm db today) = emptyRecord
    ∨ recOf (clean_record raw cd non hm db today)
        = assembleRecord raw hm non db today := by
  rw [clean_record_eq]
  split
  · exact Or.inl rfl
  · exact Or.inr rfl

/-- The discount stored by the validator always lies in `[0, 0.9]`. -/
theorem normalizeDiscount_range (q : ℚ) :
    0 ≤ normalizeDiscount q ∧ normalizeDiscount q ≤ 9/10 := by
  simp only [normalizeDiscount]
  set d0 := if q > 1 then q / 100 else q with hd0
  set d1 := if d0 < 0 then (0:ℚ) else d0 with hd1
  have h0 : 0 ≤ d1 := by
    rw [hd1]
    split
    · exact le_refl 0
    · next h => exact le_of_not_lt h
  by_cases h3 : d1 > 9/10
  · rw [if_pos h3]
    norm_num
  · rw [if_neg h3]
    exact ⟨h0, le_of_not_lt h3⟩

/-- C6: for every raw discount value the stored `Discount` lies in
`[0, 0.9]`; a coerced value `> 1` is divided by 100 and then clamped; in
particular inputs 15, 0.15, 150 and -5 store 0.15, 0.15, 0.9 and 0.0. -/
theorem c6_discount_normalization :
    (∀ (raw : RawRecord) (cd : Bool) (non : Option Nat)
        (hm : Option (List (String × String))) (db : List StoredRow)
        (today : String),
        0 ≤ (recOf (clean_record raw cd non hm db today)).Discount
        ∧ (recOf (clean_record raw cd non hm db today)).Discount ≤ 9/10)
    ∧ normalizeDiscount 15 = 15/100
    ∧ normalizeDiscount (15/100) = 15/100
    ∧ normalizeDiscount 150 = 9/10
    ∧ normalizeDiscount (-5) = 0
    ∧ (∀ q : ℚ, 1 < q → normalizeDiscount q = min (q/100) (9/10)) := by
  refine ⟨?_, ?_, ?_, ?_, ?_, ?_⟩
  · intro raw cd non hm db today
    rcases recOf_cases raw cd non hm db today with h | h <;> rw [h]
    · constructor <;> norm_num [emptyRecord]
    · exact normalizeDiscount_range (disc_fOf raw hm)
  · with_unfolding_all rfl
  · with_unfolding_all rfl
  · with_unfolding_all rfl
  · with_unfolding_all rfl
  · intro q hq
    simp only [normalizeDiscount]
    rw [if_pos (by linarith : q > 1)]
    rw [if_neg (by intro hc; linarith : ¬(q/100 < 0))]
    rcases le_or_lt (q/100) (9/10) with h | h
    · rw [if_neg (by intro hc; linarith : ¬(q/100 > 9/10)), min_eq_left h]
    · rw [if_pos h, min_eq_right (le_of_lt h)]

/-- C6 witness: the percentage-interpretation clause of
`c6_discount_normalization` applied at the concrete input 15. -/
theorem c6_discount_normalization_witness :
    1 < (15:ℚ) ∧ normalizeDiscount 15 = min ((15:ℚ)/100) (9/10) := by
  constructor
  · norm_num
  · exact c6_discount_normalization.2.2.2.2.2 15 (by norm_num)

/-- C2 counterexample: the raw record `{"Quantity": "0.5"}` coerces to the
positive fractional quantity 0.5, and the cleaned `Quantity` is 0 — not a
positive integer. -/
theorem c2_fractional_quantity_cex :
    qty_fOf c2raw none = 1/2
    ∧ (recOf (clean_record c2raw true none none [] "2024-06-01")).Quantity = 0
    ∧ ¬(0 < (recOf (clean_record c2raw true none none [] "2024-06-01")).Quantity) := by
  refine ⟨?_, ?_, ?_⟩
  · with_unfolding_all rfl
  · with_unfolding_all rfl
  · intro h
    have h0 : (recOf (clean_record c2raw true none none [] "2024-06-01")).Quantity = 0 := by
      with_unfolding_all rfl
    rw [h0] at h
    exact lt_irrefl 0 h

/-- C2 amended: the cleaned `Quantity` is a non-negative integer: a
coerced quantity that is not `> 0` is reset to 1, and a positive coerced
quantity is truncated to an integer, which is positive except when the
coerced value lies strictly between 0 and 1 (there it becomes 0, as for
input `"0.5"`). -/
theorem c2_quantity_nonnegative :
    (∀ (raw : RawRecord) (cd : Bool) (non : Option Nat)
        (hm : Option (List (String × String))) (db : List StoredRow)
        (today : String),
        0 ≤ (recOf (clean_record raw cd non hm db today)).Quantity)
    ∧ (∀ q : ℚ, 0 ≤ validateQty q)
    ∧ (∀ q : ℚ, ¬(0 < q ∧ q < 1) → 0 < validateQty q)
    ∧ validateQty (1/2) = 0 := by
  have hv : ∀ q : ℚ, 0 ≤ validateQty q := by
    intro q
    unfold validateQty pyInt
    split
    · next h =>
      rw [if_pos (le_of_lt h)]
      exact Int.floor_nonneg.mpr (le_of_lt h)
    · norm_num
  refine ⟨?_, hv, ?_, ?_⟩
  · intro raw cd non hm db today
    rcases recOf_cases raw cd non hm db today with h | h <;> rw [h]
    · norm_num [emptyRecord]
    · exact hv (qty_fOf raw hm)
  · intro q hq
    unfold validateQty pyInt
    split
    · next h =>
      rw [if_pos (le_of_lt h)]
      have h1 : (1:ℚ) ≤ q := by
        by_contra hc
        exact hq ⟨h, lt_of_not_le hc⟩
      exact lt_of_lt_of_le Int.zero_lt_one (Int.le_floor.mpr (by exact_mod_cast h1))
    · norm_num
  · with_unfolding_all rfl

/-- C2 witness: the positivity clause of `c2_quantity_nonnegative`
applied at the concrete coerced quantity 3. -/
theorem c2_quantity_nonnegative_witness :
    ¬((0:ℚ) < 3 ∧ (3:ℚ) < 1) ∧ 0 < validateQty 3 := by
  constructor
  · intro h
    have := h.2
    norm_num at this
  · exact c2_quantity_nonnegative.2.2.1 3 (by intro h; have := h.2; norm_num at this)

/-- C5: the cleaned record always satisfies
`Sales_Amount = round(Quantity * Unit_Price * (1 - Discount), 2)` and
`Profit = round(Sales_Amount - Quantity * Cost_Price, 2)`, computed from
its own validated fields — raw sales/profit inputs are never carried
over. -/
theorem c5_derived_fields_recomputed (raw : RawRecord) (cd : Bool)
    (non : Option Nat) (hm : Option (List (String × String)))
    (db : List StoredRow) (today : String) :
    (recOf (clean_record raw cd non hm db today)).Sales_Amount
      = round2 (((recOf (clean_record raw cd non hm db today)).Quantity : ℚ)
          * (recOf (clean_record raw cd non hm db today)).Unit_Price
          * (1 - (recOf (clean_record raw cd non hm db today)).Discount))
    ∧ (recOf (clean_record raw cd non hm db today)).Profit
      = round2 ((recOf (clean_record raw cd non hm db today)).Sales_Amount
          - ((recOf (clean_record raw cd non hm db today)).Quantity : ℚ)
            * (recOf (clean_record raw cd non hm db today)).Cost_Price) := by
  rcases recOf_cases raw cd non hm db today with h | h <;> rw [h]
  · constructor <;> with_unfolding_all rfl
  · constructor <;> rfl

/-- C3 counterexample: cleaning `{"Location": "north", "Qty": "-3"}`
resets the non-positive coerced quantity -3 to 1, yet the returned
warnings list is empty — the correction is silent. -/
theorem c3_silent_quantity_correction_cex :
    qty_fOf c3raw none = -3
    ∧ (recOf (clean_record c3raw true none none [] "2024-06-01")).Quantity = 1
    ∧ isOkB (clean_record c3raw true none none [] "2024-06-01") = true
    ∧ warnsOf (clean_record c3raw true none none [] "2024-06-01") = [] := by
  refine ⟨?_, ?_, ?_, ?_⟩ <;> with_unfolding_all rfl

/-- C3 amended: value corrections never abort processing — with
duplicate checking off, `clean_record` always succeeds — and the only
corrections that append a warning are keeping a region that matches no
canonical name and replacing a malformed date; the quantity, price,
discount and region-substring corrections are silent. -/
theorem c3_corrections_never_abort_two_warning_kinds (raw : RawRecord)
    (non : Option Nat) (hm : Option (List (String × String)))
    (db : List StoredRow) (today : String) :
    ∃ r rw dw,
      clean_record raw false non hm db today = .ok (r, rw ++ dw)
      ∧ (rw = [] ∨ ∃ s, rw = ["Region \x27" ++ s ++ "\x27 is non-standard"])
      ∧ (dw = [] ∨ ∃ s, dw = ["Date \x27" ++ s ++ "\x27 invalid, used today"]) := by
  refine ⟨assembleRecord raw hm non db today, (regionPair raw hm).2,
    dateWarnings raw hm, rfl, ?_, ?_⟩
  · unfold regionPair normalizeRegion
    split
    · exact Or.inl rfl
    · split
      · exact Or.inl rfl
      · exact Or.inr ⟨_, rfl⟩
  · unfold dateWarnings
    split
    · exact Or.inr ⟨_, rfl⟩
    · exact Or.inl rfl

/-- `isErrB` of the duplicate-check guard is its condition. -/
theorem isErrB_guard (c : Bool) (e : String) (p : SalesRecord × List String) :
    isErrB (if c then Except.error e else Except.ok p) = c := by
  cases c <;> rfl

/-- C7: `clean_record` fails if and only if duplicate checking is on, an
explicit non-empty `Order_ID` was supplied, and that id already exists in
the store; and on that failure the single-record submission endpoint
rejects the request leaving the store unchanged, naming the duplicate
identifier. -/
theorem c7_duplicate_error_iff :
    (∀ (raw : RawRecord) (cd : Bool) (non : Option Nat)
        (hm : Option (List (String × String))) (db : List StoredRow)
        (today : String),
        isErrB (clean_record raw cd non hm db today) = true
          ↔ cd = true ∧ explicitOrderId raw hm ≠ ""
            ∧ orderExists db (explicitOrderId raw hm) = true)
    ∧ (∀ (raw : RawRecord) (db : List StoredRow) (today : String),
        isErrB (clean_record raw true none none db today) = true →
          api_orders_post db raw today
            = (db, .error ("Duplicate Order_ID: " ++ explicitOrderId raw none))) := by
  constructor
  · intro raw cd non hm db today
    rw [clean_record_eq, isErrB_guard]
    simp [Bool.and_eq_true, Bool.not_eq_true', beq_eq_false_iff_ne, and_assoc]
  · intro raw db today h
    rw [clean_record_eq, isErrB_guard] at h
    unfold api_orders_post
    rw [clean_record_eq, h]
    rfl

/-- C7 witness: submitting the explicit id `X1` against a store already
holding `X1` fails, and the POST endpoint leaves the store unchanged. -/
theorem c7_duplicate_error_iff_witness :
    isErrB (clean_record c7raw true none none c7db "2024-06-01") = true
    ∧ api_orders_post c7db c7raw "2024-06-01"
        = (c7db, .error ("Duplicate Order_ID: " ++ explicitOrderId c7raw none)) := by
  have h1 : isErrB (clean_record c7raw true none none c7db "2024-06-01") = true :=
    (c7_duplicate_error_iff.1 c7raw true none none c7db "2024-06-01").mpr
      ⟨rfl, by with_unfolding_all decide, by with_unfolding_all rfl⟩
  exact ⟨h1, c7_duplicate_error_iff.2 c7raw c7db "2024-06-01" h1⟩

/-- C8 counterexample: a store whose single South customer holds two
distinct orders has a repeat rate of 100% — the region has a customer,
yet rule 3 emits nothing. -/
theorem c8_rule3_silent_at_high_rate_cex :
    southCustomerIds c8rows = ["C1"]
    ∧ southRepeatRate c8rows = some 100
    ∧ rule3_south c8rows = [] := by
  refine ⟨?_, ?_, ?_⟩ <;> with_unfolding_all rfl

/-- C8 amended: rule 3 emits its repeat-customer-rate statement only
when the South region has at least one customer AND the rounded rate is
below 60% — the emitted statement is itself the warning; at or above 60%
nothing is emitted. -/
theorem c8_rule3_emits_iff_below_60 (rows : List SalesRecord) :
    rule3_south rows ≠ []
      ↔ southCustomerIds rows ≠ []
        ∧ (southRepeatRate rows).any (fun r => decide (r < 60)) = true := by
  have hr : southRepeatRate rows = none ↔ southCustomerIds rows = [] := by
    simp only [southRepeatRate]
    split
    · next h => simp [List.isEmpty_iff.mp h]
    · next h =>
      rw [List.isEmpty_iff] at h
      simp [h]
  unfold rule3_south
  cases hs : southRepeatRate rows with
  | none =>
    simp [hr.mp hs]
  | some rate =>
    have hne : southCustomerIds rows ≠ [] := by
      intro hc
      rw [hr.mpr hc] at hs
      exact Option.noConfusion hs
    by_cases hlt : rate < 60
    · simp [hlt, hne]
    · simp [hlt, hne]

/-- C1: bulk-importing two rows that share the explicit `Order_ID` `A1`
into an empty store inserts BOTH rows — the `sales` schema has no
uniqueness constraint on `Order_ID`, so `INSERT OR IGNORE` never skips a
duplicate, and after the import the `Order_ID`s of the dataset are not
unique. -/
theorem c1_bulk_duplicate_order_id_inserted :
    ((api_import [] c1headers [c1row, c1row] "2024-06-01").db.map
        (fun r => r.row.Order_ID)) = ["A1", "A1"]
    ∧ (api_import [] c1headers [c1row, c1row] "2024-06-01").inserted = 2
    ∧ (api_import [] c1headers [c1row, c1row] "2024-06-01").skipped = 0
    ∧ ¬(["A1", "A1"] : List String).Nodup := by
  refine ⟨?_, ?_, ?_, ?_⟩
  · with_unfolding_all rfl
  · with_unfolding_all rfl
  · with_unfolding_all rfl
  · decide

/- ── Idempotence of the string cleaning (for C10) ──────────────────── -/

/-- `toList` undoes `asString`. -/
theorem toList_asString (l : List Char) : (List.asString l).toList = l := rfl

/-- `asciiUpper` either fixes a character or maps a lower/upper pair. -/
theorem asciiUpper_cases (c : Char) :
    asciiUpper c = c
    ∨ ∃ p, p ∈ lowerUpperPairs ∧ c = p.1 ∧ asciiUpper c = p.2 := by
  unfold asciiUpper
  cases hf : lowerUpperPairs.find? (fun p => p.1 == c) with
  | none => exact Or.inl rfl
  | some p =>
    refine Or.inr ⟨p, List.mem_of_find?_eq_some hf, ?_, rfl⟩
    have h := List.find?_some hf
    simp only [beq_iff_eq] at h
    exact h.symm

/-- `asciiLower` either fixes a character or maps an upper/lower pair. -/
theorem asciiLower_cases (c : Char) :
    asciiLower c = c
    ∨ ∃ p, p ∈ upperLowerPairs ∧ c = p.1 ∧ asciiLower c = p.2 := by
  unfold asciiLower
  cases hf : upperLowerPairs.find? (fun p => p.1 == c) with
  | none => exact Or.inl rfl
  | some p =>
    refine Or.inr ⟨p, List.mem_of_find?_eq_some hf, ?_, rfl⟩
    have h := List.find?_some hf
    simp only [beq_iff_eq] at h
    exact h.symm

/-- Case-changing never creates or destroys whitespace. -/
theorem isSpaceB_titleStep (b : Bool) (c : Char) :
    isSpaceB (titleStep b c) = isSpaceB c := by
  cases b with
  | false =>
    show isSpaceB (asciiUpper c) = isSpaceB c
    rcases asciiUpper_cases c with h | ⟨p, hp, hc, h⟩
    · rw [h]
    · rw [h, hc]
      fin_cases hp <;> rfl
  | true =>
    show isSpaceB (asciiLower c) = isSpaceB c
    rcases asciiLower_cases c with h | ⟨p, hp, hc, h⟩
    · rw [h]
    · rw [h, hc]
      fin_cases hp <;> rfl

/-- Case-changing never creates or destroys ASCII letters. -/
theorem isAsciiLetter_titleStep (b : Bool) (c : Char) :
    isAsciiLetter (titleStep b c) = isAsciiLetter c := by
  cases b with
  | false =>
    show isAsciiLetter (asciiUpper c) = isAsciiLetter c
    rcases asciiUpper_cases c with h | ⟨p, hp, hc, h⟩
    · rw [h]
    · rw [h, hc]
      fin_cases hp <;> rfl
  | true =>
    show isAsciiLetter (asciiLower c) = isAsciiLetter c
    rcases asciiLower_cases c with h | ⟨p, hp, hc, h⟩
    · rw [h]
    · rw [h, hc]
      fin_cases hp <;> rfl

/-- Case-changing twice with the same state is the same as once. -/
theorem titleStep_idem (b : Bool) (c : Char) :
    titleStep b (titleStep b c) = titleStep b c := by
  cases b with
  | false =>
    show asciiUpper (asciiUpper c) = asciiUpper c
    rcases asciiUpper_cases c with h | ⟨p, hp, hc, h⟩
    · rw [h, h]
    · rw [h]
      fin_cases hp <;> rfl
  | true =>
    show asciiLower (asciiLower c) = asciiLower c
    rcases asciiLower_cases c with h | ⟨p, hp, hc, h⟩
    · rw [h, h]
    · rw [h]
      fin_cases hp <;> rfl

/-- Whitespace characters are not ASCII letters. -/
theorem isAsciiLetter_of_space (c : Char) (h : isSpaceB c = true) :
    isAsciiLetter c = false := by
  have hd : c = ' ' ∨ c = '\t' ∨ c = '\n' ∨ c = '\r' ∨ c = '\x0b' ∨ c = '\x0c' := by
    simpa [isSpaceB, or_assoc] using h
  rcases hd with h | h | h | h | h | h <;> subst h <;> rfl

/-- `titleChars` preserves emptiness. -/
theorem isEmpty_titleChars (b : Bool) (l : List Char) :
    (titleChars b l).isEmpty = l.isEmpty := by
  cases l <;> rfl

/-- The fold step of `dropTrailing`, unfolded on a cons cell. -/
theorem dropTrailing_cons (x : Char) (xs : List Char) :
    dropTrailing (x :: xs)
      = if (dropTrailing xs).isEmpty && isSpaceB x then []
        else x :: dropTrailing xs := rfl

/-- Dropping trailing whitespace commutes with title-casing: the state
flows left-to-right, so removing a suffix does not change earlier
characters. -/
theorem dropTrailing_titleChars (b : Bool) (l : List Char) :
    dropTrailing (titleChars b l) = titleChars b (dropTrailing l) := by
  induction l generalizing b with
  | nil => rfl
  | cons c cs ih =>
    show dropTrailing (titleStep b c :: titleChars (isAsciiLetter c) cs)
        = titleChars b (dropTrailing (c :: cs))
    rw [dropTrailing_cons, dropTrailing_cons]
    rw [ih (isAsciiLetter c), isEmpty_titleChars, isSpaceB_titleStep]
    by_cases hcond : ((dropTrailing cs).isEmpty && isSpaceB c) = true
    · rw [if_pos hcond, if_pos hcond]
      rfl
    · rw [if_neg hcond, if_neg hcond]
      rfl

/-- Dropping leading whitespace commutes with title-casing from the
initial (uncased) state: leading whitespace keeps the state uncased. -/
theorem dropWhile_titleChars (l : List Char) :
    (titleChars false l).dropWhile isSpaceB
      = titleChars false (l.dropWhile isSpaceB) := by
  induction l with
  | nil => rfl
  | cons c cs ih =>
    show (titleStep false c :: titleChars (isAsciiLetter c) cs).dropWhile isSpaceB
        = titleChars false ((c :: cs).dropWhile isSpaceB)
    rw [List.dropWhile_cons, List.dropWhile_cons, isSpaceB_titleStep]
    by_cases hc : isSpaceB c = true
    · rw [if_pos hc, if_pos hc, isAsciiLetter_of_space c hc]
      exact ih
    · rw [if_neg hc, if_neg hc]
      rfl

/-- Title-casing is idempotent. -/
theorem titleChars_idem (b : Bool) (l : List Char) :
    titleChars b (titleChars b l) = titleChars b l := by
  induction l generalizing b with
  | nil => rfl
  | cons c cs ih =>
    show titleStep b (titleStep b c)
        :: titleChars (isAsciiLetter (titleStep b c)) (titleChars (isAsciiLetter c) cs)
      = titleStep b c :: titleChars (isAsciiLetter c) cs
    rw [titleStep_idem, isAsciiLetter_titleStep, ih (isAsciiLetter c)]

/-- Dropping trailing whitespace is idempotent. -/
theorem dropTrailing_idem (l : List Char) :
    dropTrailing (dropTrailing l) = dropTrailing l := by
  induction l with
  | nil => rfl
  | cons c cs ih =>
    rw [dropTrailing_cons]
    by_cases h : ((dropTrailing cs).isEmpty && isSpaceB c) = true
    · rw [if_pos h]
      rfl
    · rw [if_neg h]
      rw [dropTrailing_cons, ih, if_neg h]

/-- Dropping leading whitespace is idempotent. -/
theorem dropWhile_idem_space (l : List Char) :
    (l.dropWhile isSpaceB).dropWhile isSpaceB = l.dropWhile isSpaceB := by
  induction l with
  | nil => rfl
  | cons c cs ih =>
    rw [List.dropWhile_cons]
    by_cases hc : isSpaceB c = true
    · rw [if_pos hc]
      exact ih
    · rw [if_neg hc, List.dropWhile_cons, if_neg hc]

/-- A list with no leading whitespace keeps that property after dropping
trailing whitespace. -/
theorem dropWhile_dropTrailing (y : List Char)
    (hy : y.dropWhile isSpaceB = y) :
    (dropTrailing y).dropWhile isSpaceB = dropTrailing y := by
  cases y with
  | nil => rfl
  | cons c cs =>
    rw [List.dropWhile_cons] at hy
    by_cases hc : isSpaceB c = true
    · rw [if_pos hc] at hy
      have hlen := congrArg List.length hy
      have hle : (cs.dropWhile isSpaceB).length ≤ cs.length :=
        (List.dropWhile_sublist _).length_le
      simp only [List.length_cons] at hlen
      omega
    · rw [dropTrailing_cons]
      by_cases h2 : ((dropTrailing cs).isEmpty && isSpaceB c) = true
      · rw [if_pos h2]
        rfl
      · rw [if_neg h2, List.dropWhile_cons, if_neg hc]

/-- The string cleaning `strip().title()` of `clean_record` is
idempotent: re-cleaning an already cleaned value returns it unchanged. -/
theorem cleanStr_idem (s : String) : cleanStr (cleanStr s) = cleanStr s := by
  simp only [cleanStr, titleCase, pyStrip, pyStripList, toList_asString]
  rw [dropWhile_titleChars]
  rw [dropWhile_dropTrailing _ (dropWhile_idem_space s.toList)]
  rw [dropTrailing_titleChars]
  rw [dropTrailing_idem]
  rw [titleChars_idem]

/-- C10 counterexample: for `{"Category": " "}` the category cleans to
the empty string — a value other than `"Other"` — and the product is
absent, yet the cleaned `Product` is `"Unknown Product"`, not the
cleaned category value. -/
theorem c10_empty_category_cex :
    iget c10raw none "Product" = none
    ∧ catOf c10raw none = ""
    ∧ catOf c10raw none ≠ "Other"
    ∧ (recOf (clean_record c10raw false none none [] "2024-06-01")).Product
        = "Unknown Product"
    ∧ (recOf (clean_record c10raw false none none [] "2024-06-01")).Product
        ≠ catOf c10raw none := by
  refine ⟨?_, ?_, ?_, ?_, ?_⟩
  · with_unfolding_all rfl
  · with_unfolding_all rfl
  · with_unfolding_all decide
  · with_unfolding_all rfl
  · with_unfolding_all decide

/-- C10 amended: when the raw product is absent or empty and the cleaned
category is a NON-EMPTY value other than `"Other"`, the cleaned `Product`
equals the cleaned category; when both product and category are absent,
`Product` is `"Unknown Product"`. (An empty cleaned category — e.g. a
whitespace-only raw value — also falls back to `"Unknown Product"`.) -/
theorem c10_product_category_fallback (raw : RawRecord) (non : Option Nat)
    (hm : Option (List (String × String))) (db : List StoredRow)
    (today : String) :
    (pyFalsy (iget raw hm "Product") = true → catOf raw hm ≠ "Other" →
      catOf raw hm ≠ "" →
      (recOf (clean_record raw false non hm db today)).Product = catOf raw hm)
    ∧ (iget raw hm "Product" = none → iget raw hm "Category" = none →
      (recOf (clean_record raw false non hm db today)).Product
        = "Unknown Product") := by
  have hrec : recOf (clean_record raw false non hm db today)
      = assembleRecord raw hm non db today := rfl
  constructor
  · intro hp hc1 hc2
    rw [hrec]
    show prodOf raw hm = catOf raw hm
    have hb : (catOf raw hm == "Other") = false := beq_eq_false_iff_ne.mpr hc1
    simp only [prodOf, hp, hb, Bool.not_false, Bool.and_true, if_true]
    show strOrDefault (some (catOf raw hm)) "Unknown Product" = catOf raw hm
    simp only [strOrDefault, pyOrDefault, if_neg hc2]
    show cleanStr (catOf raw hm) = catOf raw hm
    simp only [catOf, strOrDefault]
    exact cleanStr_idem _
  · intro h1 h2
    rw [hrec]
    show prodOf raw hm = "Unknown Product"
    have hcat : catOf raw hm = "Other" := by
      simp only [catOf, h2]
      rfl
    simp only [prodOf, h1, hcat]
    rfl

/-- C10 witness: for `{"Category": "gadgets"}` with no product the
cleaned `Product` equals the cleaned category `Gadgets`; for an empty raw
record it is `Unknown Product`. -/
theorem c10_product_category_fallback_witness :
    (recOf (clean_record c10wraw false none none [] "2024-06-01")).Product
        = "Gadgets"
    ∧ (recOf (clean_record [] false none none [] "2024-06-01")).Product
        = "Unknown Product" := by
  constructor
  · have h := (c10_product_category_fallback c10wraw none none [] "2024-06-01").1
      (by with_unfolding_all rfl) (by with_unfolding_all decide)
      (by with_unfolding_all decide)
    rw [h]
    with_unfolding_all rfl
  · exact (c10_product_category_fallback [] none none [] "2024-06-01").2 rfl rfl

/- ── Alias-resolution lemmas (for C9) ──────────────────────────────── -/

/-- Looking up a key that differs from the head key skips the head. -/
theorem mappingLookup_cons_of_ne (q : String × String)
    (m : List (String × String)) (t : String) (h : q.1 ≠ t) :
    mappingLookup (q :: m) t = mappingLookup m t := by
  unfold mappingLookup
  rw [List.find?_cons_of_neg]
  simp [h]

/-- Looking up the head key returns the head value. -/
theorem mappingLookup_cons_self (q : String × String)
    (m : List (String × String)) :
    mappingLookup (q :: m) q.1 = some q.2 := by
  unfold mappingLookup
  rw [List.find?_cons_of_pos]
  · rfl
  · simp

/-- A key absent from an alias list is absent from the mapping built
from it. -/
theorem mappingLookup_mk_none (headers : List String)
    (al : List (String × List String)) (t : String)
    (ht : t ∉ al.map Prod.fst) :
    mappingLookup (al.filterMap (fun p =>
      (firstMatch headers (p.1 :: p.2)).map (fun h => (p.1, h)))) t = none := by
  induction al with
  | nil => rfl
  | cons p ps ih =>
    rw [List.map_cons, List.mem_cons] at ht
    push_neg at ht
    rw [List.filterMap_cons]
    cases hfm : firstMatch headers (p.1 :: p.2) with
    | none =>
      simp only [Option.map_none']
      exact ih (fun hc => (ht.2 hc))
    | some h =>
      simp only [Option.map_some']
      rw [mappingLookup_cons_of_ne (p.1, h) _ t (fun hc => ht.1 hc.symm)]
      exact ih ht.2

/-- For an alias table with distinct canonical keys, the mapping entry of
each canonical field is exactly the first matching candidate in priority
order. -/
theorem mappingLookup_mk (headers : List String) :
    ∀ (al : List (String × List String)), (al.map Prod.fst).Nodup →
      ∀ (t : String) (alts : List String), (t, alts) ∈ al →
        mappingLookup (al.filterMap (fun p =>
          (firstMatch headers (p.1 :: p.2)).map (fun h => (p.1, h)))) t
          = firstMatch headers (t :: alts) := by
  intro al
  induction al with
  | nil =>
    intro _ t alts hmem
    cases hmem
  | cons p ps ih =>
    intro hnd t alts hmem
    rw [List.map_cons, List.nodup_cons] at hnd
    rw [List.filterMap_cons]
    rcases List.mem_cons.mp hmem with heq | hmem'
    · subst heq
      cases hfm : firstMatch headers (t :: alts) with
      | none =>
        simp only [Option.map_none']
        exact mappingLookup_mk_none headers ps t hnd.1
      | some h =>
        simp only [Option.map_some']
        exact mappingLookup_cons_self (t, h) _
    · have htk : t ∈ ps.map Prod.fst :=
        List.mem_map.mpr ⟨(t, alts), hmem', rfl⟩
      have hne : p.1 ≠ t := fun hc => hnd.1 (hc ▸ htk)
      cases hfm : firstMatch headers (p.1 :: p.2) with
      | none =>
        simp only [Option.map_none']
        exact ih hnd.2 t alts hmem'
      | some h =>
        simp only [Option.map_some']
        rw [mappingLookup_cons_of_ne (p.1, h) _ t hne]
        exact ih hnd.2 t alts hmem'

/-- `rawNormLookup` over a three-header set, given the normalizations
of the headers: the last matching header wins. -/
theorem rawNormLookup_triple (x y z nx ny nz : String)
    (hx : normLabel x = nx) (hy : normLabel y = ny) (hz : normLabel z = nz)
    (hx0 : x ≠ "") (hy0 : y ≠ "") (hz0 : z ≠ "") (key : String) :
    rawNormLookup [x, y, z] key
      = if nz = key then some z
        else if ny = key then some y
        else if nx = key then some x
        else none := by
  unfold rawNormLookup
  have ex : (!(x == "")) = true := by
    rw [beq_eq_false_iff_ne.mpr hx0]
    rfl
  have ey : (!(y == "")) = true := by
    rw [beq_eq_false_iff_ne.mpr hy0]
    rfl
  have ez : (!(z == "")) = true := by
    rw [beq_eq_false_iff_ne.mpr hz0]
    rfl
  simp only [List.filter_cons, List.filter_nil, ex, ey, ez, hx, hy, hz,
    Bool.true_and]
  by_cases k1 : nx = key <;> by_cases k2 : ny = key <;> by_cases k3 : nz = key <;>
    simp [k1, k2, k3, List.getLast?]

/-- C9: header resolution is insensitive to case, whitespace/separator
characters and header ordering: any casing of the header set
`{"Order #", "Buyer", "Qty"}`, in any of its orderings, resolves to
exactly `Order_ID ↦ "Order #"`-header, `Customer_Name ↦ "Buyer"`-header,
`Quantity ↦ "Qty"`-header; and for every canonical field the kept entry
is the first matching candidate of `[target] + aliases` in priority
order. -/
theorem c9_alias_resolution :
    (∀ (a b c : String),
      normLabel a = normLabel "Order #" → normLabel b = normLabel "Buyer" →
      normLabel c = normLabel "Qty" →
      ∀ l : List String,
        l = [a, b, c] ∨ l = [a, c, b] ∨ l = [b, a, c] ∨ l = [b, c, a]
          ∨ l = [c, a, b] ∨ l = [c, b, a] →
        get_header_mapping l
          = [("Order_ID", a), ("Customer_Name", b), ("Quantity", c)])
    ∧ (∀ (headers : List String) (t : String) (alts : List String),
        (t, alts) ∈ aliases →
        mappingLookup (get_header_mapping headers) t
          = firstMatch headers (t :: alts)) := by
  constructor
  · intro a b c ha hb hc l hl
    have ha' : normLabel a = "order" := ha.trans (by rfl)
    have hb' : normLabel b = "buyer" := hb.trans (by rfl)
    have hc' : normLabel c = "qty" := hc.trans (by rfl)
    have ha0 : a ≠ "" := by
      intro h0
      rw [h0] at ha'
      exact absurd ha' (by decide)
    have hb0 : b ≠ "" := by
      intro h0
      rw [h0] at hb'
      exact absurd hb' (by decide)
    have hc0 : c ≠ "" := by
      intro h0
      rw [h0] at hc'
      exact absurd hc' (by decide)
    rcases hl with rfl | rfl | rfl | rfl | rfl | rfl
    · simp +decide only [get_header_mapping, aliases, List.filterMap_cons,
        List.filterMap_nil, firstMatch, if_true, if_false, ite_true, ite_false,
        rawNormLookup_triple a b c "order" "buyer" "qty" ha' hb' hc' ha0 hb0 hc0,
        Option.map_some', Option.map_none']
    · simp +decide only [get_header_mapping, aliases, List.filterMap_cons,
        List.filterMap_nil, firstMatch, if_true, if_false, ite_true, ite_false,
        rawNormLookup_triple a c b "order" "qty" "buyer" ha' hc' hb' ha0 hc0 hb0,
        Option.map_some', Option.map_none']
    · simp +decide only [get_header_mapping, aliases, List.filterMap_cons,
        List.filterMap_nil, firstMatch, if_true, if_false, ite_true, ite_false,
        rawNormLookup_triple b a c "buyer" "order" "qty" hb' ha' hc' hb0 ha0 hc0,
        Option.map_some', Option.map_none']
    · simp +decide only [get_header_mapping, aliases, List.filterMap_cons,
        List.filterMap_nil, firstMatch, if_true, if_false, ite_true, ite_false,
        rawNormLookup_triple b c a "buyer" "qty" "order" hb' hc' ha' hb0 hc0 ha0,
        Option.map_some', Option.map_none']
    · simp +decide only [get_header_mapping, aliases, List.filterMap_cons,
        List.filterMap_nil, firstMatch, if_true, if_false, ite_true, ite_false,
        rawNormLookup_triple c a b "qty" "order" "buyer" hc' ha' hb' hc0 ha0 hb0,
        Option.map_some', Option.map_none']
    · simp +decide only [get_header_mapping, aliases, List.filterMap_cons,
        List.filterMap_nil, firstMatch, if_true, if_false, ite_true, ite_false,
        rawNormLookup_triple c b a "qty" "buyer" "order" hc' hb' ha' hc0 hb0 ha0,
        Option.map_some', Option.map_none']
  · intro headers t alts hmem
    exact mappingLookup_mk headers aliases (by decide) t alts hmem

/-- C9 witness: a re-cased, re-ordered header set resolves as claimed,
and the `Unit_Price` mapping entry is its first matching candidate. -/
theorem c9_alias_resolution_witness :
    get_header_mapping ["buyer", "ORDER #", "Qty"]
        = [("Order_ID", "ORDER #"), ("Customer_Name", "buyer"),
           ("Quantity", "Qty")]
    ∧ mappingLookup (get_header_mapping ["Price", "Cost"]) "Unit_Price"
        = firstMatch ["Price", "Cost"]
            ("Unit_Price" :: ["Price", "Rate", "Sales Price", "Retail Price",
              "Revenue", "Purchase Amount", "Amount", "Total", "Price ($)"]) := by
  constructor
  · exact c9_alias_resolution.1 "ORDER #" "buyer" "Qty" (by rfl) (by rfl) (by rfl)
      ["buyer", "ORDER #", "Qty"] (Or.inr (Or.inr (Or.inl rfl)))
  · exact c9_alias_resolution.2 ["Price", "Cost"] "Unit_Price"
      ["Price", "Rate", "Sales Price", "Retail Price", "Revenue",
        "Purchase Amount", "Amount", "Total", "Price ($)"] (by decide)
